import Mathlib

/-!
Verification of the Cycora backend core (src/cycora-backend/app.py): a shallow
embedding of the cycle-prediction engine `calculate_predictions`, the
keyword-matching chatbot `get_chatbot_response` with its `CHATBOT_RESPONSES`
table, and the `chat` route composition, together with theorems settling the
specification claims about them.

Modelling conventions:
* Calendar dates are day numbers (days since 1970-01-01, computed by the civil
  calendar algorithm); `datetime.now()` is a day number plus a seconds-of-day
  fraction (`Now`), since `datetime` comparisons and `timedelta.days` depend on
  the time of day.
* Python `strptime(s, "%Y-%m-%d")` is modelled by `strptimeYMD` (exactly four
  year digits, 1-2 month/day digits, calendar-validated, whole string
  consumed); a failed parse is the caught `ValueError`.
* Python `int(x)` coercion is `pyInt`; `none` models an uncaught
  `ValueError`/`TypeError` escaping the function (the source only catches
  exceptions around `strptime`).
* The `while next_period < today` loop is modelled with explicit fuel
  (`advanceLoop`); `PredResult.fuelOut` means the loop is still running after
  `fuel` iterations, so `∀ fuel, … = .fuelOut` states non-termination.
* The dict returned by `calculate_predictions` keeps its date values as day
  numbers; the `strftime` presentation strings of the source are not modelled.
-/

set_option maxRecDepth 20000

/-- `isPrefixL needle haystack`: the needle is a prefix of the haystack. -/
def isPrefixL : List Char → List Char → Bool
  | [], _ => true
  | _ :: _, [] => false
  | a :: as, b :: bs => a == b && isPrefixL as bs

/-- `occursL needle haystack` models Python `needle in haystack` substring
containment on strings (as lists of characters). -/
def occursL (n : List Char) : List Char → Bool
  | [] => n.isEmpty
  | b :: bs => isPrefixL n (b :: bs) || occursL n bs

/-- Python `str.strip()`: drop whitespace from both ends. -/
def stripChars (l : List Char) : List Char :=
  ((l.dropWhile Char.isWhitespace).reverse.dropWhile Char.isWhitespace).reverse

/-- All characters are ASCII digits. -/
def allDigits (l : List Char) : Bool := l.all Char.isDigit

/-- Numeric value of a list of ASCII digits. -/
def digitsToNat (l : List Char) : Nat :=
  l.foldl (fun a c => a * 10 + (c.toNat - 48)) 0

/-- Split a character list on the `-` character (for `%Y-%m-%d` parsing). -/
def splitDash : List Char → List (List Char)
  | [] => [[]]
  | c :: rest =>
    let r := splitDash rest
    if c = '-' then [] :: r
    else
      match r with
      | [] => [[c]]
      | g :: gs => (c :: g) :: gs

/-- Gregorian leap year, as Python's `datetime` uses. -/
def isLeap (y : Int) : Bool := y % 4 == 0 && (y % 100 != 0 || y % 400 == 0)

/-- Days in a month of the proleptic Gregorian calendar. -/
def daysInMonth (y m : Int) : Int :=
  if m = 2 then (if isLeap y then 29 else 28)
  else if m = 4 ∨ m = 6 ∨ m = 9 ∨ m = 11 then 30 else 31

/-- Day number (days since 1970-01-01) of a civil date, by the standard
days-from-civil algorithm. -/
def civilToDays (y m d : Int) : Int :=
  let y' := if m ≤ 2 then y - 1 else y
  let era := Int.fdiv y' 400
  let yoe := y' - era * 400
  let mp := Int.fmod (m + 9) 12
  let doy := (153 * mp + 2) / 5 + d - 1
  let doe := yoe * 365 + yoe / 4 - yoe / 100 + doy
  era * 146097 + doe - 719468

/-- Model of Python `datetime.strptime(s, "%Y-%m-%d")` from app.py line 105:
exactly four year digits, one or two month and day digits, the whole string
consumed, the date calendar-valid and the year at least 1. Returns the day
number of the parsed date, or `none` for the `ValueError` the source catches. -/
def strptimeYMD (s : String) : Option Int :=
  match splitDash s.data with
  | [ys, ms, ds] =>
    if ys.length = 4 ∧ allDigits ys ∧
       (ms.length = 1 ∨ ms.length = 2) ∧ allDigits ms ∧
       (ds.length = 1 ∨ ds.length = 2) ∧ allDigits ds then
      let y : Int := digitsToNat ys
      let m : Int := digitsToNat ms
      let d : Int := digitsToNat ds
      if 1 ≤ y ∧ 1 ≤ m ∧ m ≤ 12 ∧ 1 ≤ d ∧ d ≤ daysInMonth y m then
        some (civilToDays y m d)
      else none
    else none
  | _ => none

/-- A Python value that may be stored in a cycle-data field. -/
inductive PyVal where
  | vInt : Int → PyVal
  | vStr : String → PyVal
deriving DecidableEq, Repr

/-- Python `int(s)` on a string: surrounding whitespace, an optional sign and
at least one digit; anything else raises. -/
def parseIntStr (s : String) : Option Int :=
  let l := stripChars s.data
  match l with
  | '-' :: rest =>
    if rest ≠ [] ∧ allDigits rest then some (-(digitsToNat rest : Int)) else none
  | '+' :: rest =>
    if rest ≠ [] ∧ allDigits rest then some ((digitsToNat rest : Int)) else none
  | _ => if l ≠ [] ∧ allDigits l then some ((digitsToNat l : Int)) else none

/-- Python `int(v)` coercion; `none` models an uncaught exception. -/
def pyInt : PyVal → Option Int
  | .vInt n => some n
  | .vStr s => parseIntStr s

/-- A `datetime.now()` instant: day number plus seconds past midnight
(`frac < 86400` for a real instant). -/
structure Now where
  day : Int
  frac : Nat
deriving DecidableEq, Repr

/-- `next_period < today` as a `datetime` comparison: `next_period` is a
midnight instant, `today` has a time-of-day component. -/
def dtLTb (np : Int) (t : Now) : Bool :=
  decide (np * 86400 < t.day * 86400 + (t.frac : Int))

/-- `(today - last_period).days` of app.py line 124: floor of the difference
in days, where `last_period` is a midnight instant. -/
def daysDiff (t : Now) (last : Int) : Int :=
  Int.fdiv ((t.day - last) * 86400 + (t.frac : Int)) 86400

/-- `(next_period - today).days` of app.py line 142. -/
def dtDaysUntil (np : Int) (t : Now) : Int :=
  Int.fdiv ((np - t.day) * 86400 - (t.frac : Int)) 86400

/-- The `while next_period < today: next_period += timedelta(days=cycle_length)`
loop of app.py lines 115-116, with explicit iteration fuel; `none` means the
loop is still running after `fuel` iterations. -/
def advanceLoop (cycle_length : Int) (today : Now) : Nat → Int → Option Int
  | 0, np => if dtLTb np today then none else some np
  | fuel + 1, np =>
    if dtLTb np today then advanceLoop cycle_length today fuel (np + cycle_length)
    else some np

/-- Phase description shown for the Menstrual phase (app.py line 127). -/
def menstrualDesc : String :=
  "Your body is shedding the uterine lining. Rest, hydrate, and be gentle with yourself."

/-- Mood tip shown for the Menstrual phase (app.py line 128). -/
def menstrualTip : String :=
  "It\x27s normal to feel lower energy. Warm drinks and light movement can help."

/-- Phase description shown for the Follicular phase (app.py line 131). -/
def follicularDesc : String :=
  "Estrogen is rising! You may feel more energetic and optimistic during this phase."

/-- Mood tip shown for the Follicular phase (app.py line 132). -/
def follicularTip : String :=
  "Great time for new projects and social activities."

/-- Phase description shown for the Ovulation phase (app.py line 135). -/
def ovulationDesc : String :=
  "Peak fertility window. You may feel more confident and social."

/-- Mood tip shown for the Ovulation phase (app.py line 136). -/
def ovulationTip : String :=
  "Energy is at its highest. Channel it into meaningful activities."

/-- Phase description shown for the Luteal phase (app.py line 139). -/
def lutealDesc : String :=
  "Progesterone rises then drops. Energy may decrease as your period approaches."

/-- Mood tip shown for the Luteal phase (app.py line 140). -/
def lutealTip : String :=
  "Hydrate and rest. Be gentle with yourself — this phase asks for self-care."

/-- The phase name chosen by the `if/elif` chain of app.py lines 125-140,
first match wins. -/
def classifyPhase (days_since_period period_length : Int) : String :=
  if days_since_period < period_length then "Menstrual"
  else if days_since_period < 13 then "Follicular"
  else if days_since_period < 17 then "Ovulation"
  else "Luteal"

/-- The phase description chosen by the same `if/elif` chain. -/
def phaseDescriptionOf (days_since_period period_length : Int) : String :=
  if days_since_period < period_length then menstrualDesc
  else if days_since_period < 13 then follicularDesc
  else if days_since_period < 17 then ovulationDesc
  else lutealDesc

/-- The mood tip chosen by the same `if/elif` chain. -/
def moodTipOf (days_since_period period_length : Int) : String :=
  if days_since_period < period_length then menstrualTip
  else if days_since_period < 13 then follicularTip
  else if days_since_period < 17 then ovulationTip
  else lutealTip

/-- The `cycle_data` dict fields that `calculate_predictions` reads.
`none` models an absent key. -/
structure CycleData where
  last_period_date : Option String
  cycle_length : Option PyVal
  period_length : Option PyVal
deriving DecidableEq, Repr

/-- The dict returned by `calculate_predictions` (app.py lines 145-159), with
dates as day numbers; the `strftime` presentation strings are not modelled. -/
structure Prediction where
  next_period : Int
  days_until_period : Int
  ovulation_date : Int
  fertile_start : Int
  fertile_end : Int
  phase : String
  phase_description : String
  mood_tip : String
  day_of_cycle : Int
  cycle_length : Int
  period_length : Int
deriving DecidableEq, Repr

/-- Outcome of a `calculate_predictions` call. `invalidDate` is the `None`
return of app.py line 107; `excep` is an uncaught Python exception (a failed
`int()` coercion, or `ZeroDivisionError` in `% cycle_length`); `fuelOut` means
the `while` loop was still running when the iteration fuel ran out. -/
inductive PredResult where
  | invalidDate : PredResult
  | excep : PredResult
  | fuelOut : PredResult
  | ok : Prediction → PredResult
deriving DecidableEq, Repr

/-- Shallow embedding of `calculate_predictions` (app.py lines 102-159). -/
def calculate_predictions (cycle_data : CycleData) (today : Now) (fuel : Nat) :
    PredResult :=
  match cycle_data.last_period_date with
  | none => .invalidDate
  | some s =>
  match strptimeYMD s with
  | none => .invalidDate
  | some last_period =>
  match pyInt (cycle_data.cycle_length.getD (.vInt 28)) with
  | none => .excep
  | some cycle_length =>
  match pyInt (cycle_data.period_length.getD (.vInt 5)) with
  | none => .excep
  | some period_length =>
  match advanceLoop cycle_length today fuel (last_period + cycle_length) with
  | none => .fuelOut
  | some next_period =>
  if cycle_length = 0 then .excep
  else
    let days_since_period := Int.fmod (daysDiff today last_period) cycle_length
    let ovulation_date := next_period - 14
    .ok {
      next_period := next_period
      days_until_period := max 0 (dtDaysUntil next_period today)
      ovulation_date := ovulation_date
      fertile_start := ovulation_date - 2
      fertile_end := ovulation_date + 2
      phase := classifyPhase days_since_period period_length
      phase_description := phaseDescriptionOf days_since_period period_length
      mood_tip := moodTipOf days_since_period period_length
      day_of_cycle := days_since_period + 1
      cycle_length := cycle_length
      period_length := period_length }

/-- A `(response, emoji)` value of the `CHATBOT_RESPONSES` table. -/
structure Entry where
  response : String
  emoji : String
deriving DecidableEq, Repr
/-- Entry of the `CHATBOT_RESPONSES` table for the keyword `cramp` (from app.py). -/
def crampEntry : Entry :=
  ⟨"Cramps are very common during menstruation, caused by uterine contractions. Here are some evidence-based remedies:\n\n🔥 **Heat therapy** — A warm compress on your lower abdomen relaxes muscles\n💊 **Ibuprofen** can reduce prostaglandins (the chemicals causing cramps)\n🧘 **Gentle yoga** — Cat-cow and child\x27s pose are especially helpful\n🍵 **Ginger or chamomile tea** have natural anti-inflammatory properties\n\nIf cramps are severe and affect daily life, please consult a healthcare provider.",
   "💪"⟩

/-- Entry of the `CHATBOT_RESPONSES` table for the keyword `headache` (from app.py). -/
def headacheEntry : Entry :=
  ⟨"Hormonal headaches are common during your cycle, especially during the menstrual and late luteal phases when estrogen drops.\n\n💧 **Stay well hydrated** — dehydration worsens headaches\n😴 **Prioritize sleep** — aim for 7-9 hours\n🧊 **Cold compress** on your temples or forehead\n🍫 **Magnesium-rich foods** like dark chocolate and nuts may help\n\nIf headaches are persistent or severe, consider tracking them alongside your cycle to share with your doctor.",
   "🩹"⟩

/-- Entry of the `CHATBOT_RESPONSES` table for the keyword `bloat` (from app.py). -/
def bloatEntry : Entry :=
  ⟨"Bloating is a very common PMS symptom caused by hormonal changes that affect water retention and digestion.\n\n🥗 **Reduce salt intake** — excess sodium increases water retention\n🚶 **Light walking** helps move things through your digestive system\n🍵 **Peppermint tea** can ease bloating and gas\n💧 **Drink more water** — counterintuitive, but it helps reduce retention\n🍌 **Potassium-rich foods** like bananas help balance sodium levels",
   "🌿"⟩

/-- Entry of the `CHATBOT_RESPONSES` table for the keyword `pain` (from app.py). -/
def painEntry : Entry :=
  ⟨"Pain during your cycle can range from mild discomfort to severe cramping. Here are some general tips:\n\n🔥 **Heat pads** are one of the most effective natural remedies\n🛀 **Warm baths** can relax your entire body\n💊 **Anti-inflammatory medication** (NSAIDs) if appropriate\n🧘 **Stretching and light exercise** release endorphins\n\n⚠️ If pain is debilitating or unusual, please see a healthcare provider — conditions like endometriosis deserve medical attention.",
   "❤️‍🩹"⟩

/-- Entry of the `CHATBOT_RESPONSES` table for the keyword `nausea` (from app.py). -/
def nauseaEntry : Entry :=
  ⟨"Nausea during your period is caused by prostaglandins — the same chemicals that cause cramps.\n\n🍋 **Ginger** in any form (tea, candied, fresh) is a proven anti-nausea remedy\n🍞 **Small, bland meals** are easier on your stomach\n🌬️ **Fresh air** — step outside for a few minutes\n💧 **Sip water slowly** — avoid gulping\n\nIf nausea is severe or accompanied by vomiting, consult your doctor.",
   "🍋"⟩

/-- Entry of the `CHATBOT_RESPONSES` table for the keyword `tired` (from app.py). -/
def tiredEntry : Entry :=
  ⟨"Feeling tired is completely normal! During the late luteal phase, your progesterone levels peak and then start to drop, which can significantly impact your energy. 🍵\n\n😴 **Extra rest** — listen to your body and sleep more if you can\n💧 **Hydrate well** — fatigue is often linked to dehydration\n🥬 **Iron-rich foods** — leafy greens, lentils, and lean meats\n☕ **Moderate caffeine** is okay, but don\x27t overdo it\n\nThis tiredness is temporary and your body\x27s way of asking for care.",
   "😴"⟩

/-- Entry of the `CHATBOT_RESPONSES` table for the keyword `fatigue` (from app.py). -/
def fatigueEntry : Entry :=
  ⟨"Fatigue is one of the most commonly reported symptoms across all cycle phases. Your body is doing incredible work!\n\n🛌 **Prioritize rest** — it\x27s not laziness, it\x27s self-care\n🥜 **B-vitamin rich foods** — eggs, nuts, and whole grains boost energy\n🏃 **Light exercise** — even a 10-minute walk can improve energy levels\n🧘 **Deep breathing exercises** can reduce mental fatigue\n\nYour energy will cycle back up — usually during the follicular phase!",
   "✨"⟩

/-- Entry of the `CHATBOT_RESPONSES` table for the keyword `mood` (from app.py). -/
def moodEntry : Entry :=
  ⟨"Mood changes throughout your cycle are completely normal and tied to hormonal fluctuations:\n\n📊 **Menstrual phase** — may feel introspective and lower energy\n🌱 **Follicular phase** — rising estrogen brings optimism and creativity\n☀️ **Ovulation** — peak confidence and social energy\n🌙 **Luteal phase** — progesterone can bring irritability or anxiety\n\n💡 **Tip:** Track your moods alongside your cycle to identify your personal patterns. Knowledge is power!",
   "🌈"⟩

/-- Entry of the `CHATBOT_RESPONSES` table for the keyword `anxiety` (from app.py). -/
def anxietyEntry : Entry :=
  ⟨"Anxiety during your cycle is more common than you might think, especially during the luteal phase when progesterone drops.\n\n🫁 **Box breathing** — inhale 4s, hold 4s, exhale 4s, hold 4s\n🧘 **Grounding exercises** — name 5 things you can see, 4 you can touch...\n🚫 **Limit caffeine** — it can amplify anxiety\n📝 **Journal** — writing your thoughts can externalize worries\n🤗 **Reach out** — talk to your Inner Circle or a trusted friend\n\nIf anxiety is overwhelming, please don\x27t hesitate to seek professional support. You deserve help. ❤️",
   "💙"⟩

/-- Entry of the `CHATBOT_RESPONSES` table for the keyword `stress` (from app.py). -/
def stressEntry : Entry :=
  ⟨"Stress and your cycle are deeply interconnected — stress can even affect your cycle length!\n\n🛀 **Self-care rituals** — baths, skincare, anything that soothes you\n🌳 **Nature time** — even 20 minutes outdoors reduces cortisol\n🧘 **Meditation** — apps like Calm or Headspace are great starters\n🍵 **Adaptogenic teas** — ashwagandha or chamomile\n📵 **Digital detox** — put your phone down for a bit\n\nRemember: managing stress isn\x27t selfish, it\x27s essential. 💛",
   "🧘"⟩

/-- Entry of the `CHATBOT_RESPONSES` table for the keyword `irritab` (from app.py). -/
def irritabEntry : Entry :=
  ⟨"Irritability during PMS is caused by the drop in estrogen and progesterone before your period. You\x27re not \"being difficult\" — it\x27s biochemistry!\n\n🏃 **Physical activity** releases endorphins that counteract irritability\n🍫 **Complex carbs** help boost serotonin (whole grains, sweet potatoes)\n🛌 **Sleep** — irritability worsens with poor sleep\n📣 **Communicate** — let people close to you know you need extra patience\n\nBeing aware of these patterns is the first step to managing them. You\x27re doing great! 💪",
   "💪"⟩

/-- Entry of the `CHATBOT_RESPONSES` table for the keyword `sad` (from app.py). -/
def sadEntry : Entry :=
  ⟨"It\x27s okay to feel sad, especially during hormonal shifts in your cycle. Your feelings are valid.\n\n🤗 **Connect** with someone — your Inner Circle is here for you\n🌞 **Sunlight exposure** — helps boost serotonin naturally\n🎵 **Music** — uplifting playlists can shift your mood\n📝 **Gratitude journaling** — list 3 things you\x27re thankful for\n🍫 **Dark chocolate** — yes, it actually helps! (in moderation)\n\nRemember: this feeling will pass. You are strong and cyclical. 🌸",
   "🌸"⟩

/-- Entry of the `CHATBOT_RESPONSES` table for the keyword `luteal` (from app.py). -/
def lutealEntry : Entry :=
  ⟨"The **Luteal Phase** is the second half of your cycle (after ovulation, before your period).\n\n📊 **What happens:** Progesterone rises to prepare for potential pregnancy, then drops if no implantation occurs\n😴 **Energy:** Often lower, especially in the late luteal phase\n🍽️ **Cravings:** Carbs and chocolate cravings are normal!\n💆 **Self-care:** Prioritize rest, warm foods, and gentle movement\n\n⚡ **Tip:** This is your body\x27s \"winding down\" phase. Honor it instead of pushing through. Planning lighter schedules during this time can make a big difference.",
   "🌙"⟩

/-- Entry of the `CHATBOT_RESPONSES` table for the keyword `follicular` (from app.py). -/
def follicularEntry : Entry :=
  ⟨"The **Follicular Phase** starts after your period ends and lasts until ovulation.\n\n📊 **What happens:** Estrogen rises, follicles develop in your ovaries\n⚡ **Energy:** Increasing! You\x27ll likely feel more energetic and motivated\n🧠 **Brain:** Better focus and creativity\n🏋️ **Exercise:** Great time for high-intensity workouts\n🎯 **Productivity:** Take on new projects and set goals\n\n💡 **Tip:** This is your \"spring\" phase — plant seeds for the month ahead!",
   "🌱"⟩

/-- Entry of the `CHATBOT_RESPONSES` table for the keyword `ovulation` (from app.py). -/
def ovulationEntry : Entry :=
  ⟨"**Ovulation** is when an egg is released from your ovary, typically around day 14 of a 28-day cycle.\n\n📊 **What happens:** LH surges, egg is released, fertility peaks\n⚡ **Energy:** At its highest!\n🗣️ **Social:** You may feel more confident and communicative\n💪 **Exercise:** Peak performance time\n🌡️ **Body temp:** Slight rise after ovulation\n\n🔴 **Fertility:** This is your most fertile window (usually 3-5 days around ovulation).\n\n💡 **Tip:** This is your \"summer\" phase — shine bright!",
   "☀️"⟩

/-- Entry of the `CHATBOT_RESPONSES` table for the keyword `menstrual` (from app.py). -/
def menstrualEntry : Entry :=
  ⟨"The **Menstrual Phase** is when your period occurs (typically days 1-5).\n\n📊 **What happens:** The uterine lining sheds as hormone levels drop\n😴 **Energy:** Usually at its lowest\n🔴 **Flow:** Can vary from light to heavy\n💆 **Self-care:** Rest, warmth, and comfort foods\n🧘 **Movement:** Gentle walks or stretching are ideal\n\n💡 **Tip:** This is your \"winter\" phase — a time for rest and reflection. Don\x27t push yourself too hard!",
   "❄️"⟩

/-- Entry of the `CHATBOT_RESPONSES` table for the keyword `period` (from app.py). -/
def periodEntry : Entry :=
  ⟨"Your period is part of the menstrual phase — the beginning of a new cycle!\n\n📆 **Average length:** 3-7 days is normal\n🩸 **Flow changes:** Usually heavier on days 2-3, then lighter\n🛁 **Comfort:** Warm baths, heating pads, and comfortable clothes\n🍎 **Nutrition:** Iron-rich foods help replenish what you lose\n💊 **Pain relief:** NSAIDs work best when taken early\n\nRemember: your period is a vital sign of health. Tracking it helps you understand your body better! ❤️",
   "🔴"⟩

/-- Entry of the `CHATBOT_RESPONSES` table for the keyword `phase` (from app.py). -/
def phaseEntry : Entry :=
  ⟨"Your menstrual cycle has **4 main phases**, each with unique characteristics:\n\n❄️ **Menstrual** (Days 1-5) — Period, lowest energy, rest phase\n🌱 **Follicular** (Days 6-13) — Rising energy, creativity, new beginnings\n☀️ **Ovulation** (Days 14-16) — Peak energy, confidence, fertility\n🌙 **Luteal** (Days 17-28) — Winding down, self-care, reflection\n\nUnderstanding your phases helps you plan your life around your natural rhythms! Ask me about any specific phase to learn more.",
   "🔄"⟩

/-- Entry of the `CHATBOT_RESPONSES` table for the keyword `cycle` (from app.py). -/
def cycleEntry : Entry :=
  ⟨"Your **menstrual cycle** is the monthly process your body goes through to prepare for potential pregnancy.\n\n📊 **Average length:** 21-35 days (28 is just an average!)\n🔄 **4 phases:** Menstrual → Follicular → Ovulation → Luteal\n📈 **Hormones involved:** Estrogen, progesterone, FSH, LH\n\nEvery person\x27s cycle is unique. Tracking yours helps you understand your body\x27s own rhythm. Would you like to know about a specific phase?",
   "📊"⟩

/-- Entry of the `CHATBOT_RESPONSES` table for the keyword `exercise` (from app.py). -/
def exerciseEntry : Entry :=
  ⟨"Exercise affects and is affected by your cycle! Here\x27s a phase-by-phase guide:\n\n❄️ **Menstrual:** Gentle walks, stretching, yoga\n🌱 **Follicular:** Ramp up! Try running, cycling, HIIT\n☀️ **Ovulation:** Peak performance — go for PRs!\n🌙 **Luteal:** Moderate exercise, Pilates, swimming\n\n🔑 **Key:** Listen to your body. If you\x27re exhausted, rest IS productive. Movement should feel good, not forced.\n\n💡 Regular exercise can actually reduce PMS symptoms by up to 30%!",
   "🏃"⟩

/-- Entry of the `CHATBOT_RESPONSES` table for the keyword `sleep` (from app.py). -/
def sleepEntry : Entry :=
  ⟨"Sleep needs change throughout your cycle:\n\n😴 **Menstrual phase:** You may need more sleep (aim for 8-9 hours)\n🌱 **Follicular:** Sleep is usually easier, energy is good\n☀️ **Ovulation:** You might feel you need less sleep\n🌙 **Luteal:** Sleep quality often decreases due to progesterone\n\n💤 **Sleep hygiene tips:**\n• Keep a consistent schedule\n• Cool, dark room (65-68°F)\n• No screens 1 hour before bed\n• Magnesium supplements may help during luteal phase",
   "😴"⟩

/-- Entry of the `CHATBOT_RESPONSES` table for the keyword `diet` (from app.py). -/
def dietEntry : Entry :=
  ⟨"Nutrition plays a huge role in how you feel during your cycle!\n\n❄️ **Menstrual:** Iron-rich foods (spinach, lentils), warm soups\n🌱 **Follicular:** Light, fresh foods, fermented items (probiotics)\n☀️ **Ovulation:** Anti-inflammatory foods, raw veggies, quinoa\n🌙 **Luteal:** Complex carbs (sweet potatoes), magnesium (dark chocolate!)\n\n🚫 **Reduce:** Excess salt (bloating), caffeine (anxiety), alcohol (sleep disruption)\n✅ **Always:** Stay hydrated, eat regularly, don\x27t skip meals",
   "🥗"⟩

/-- Entry of the `CHATBOT_RESPONSES` table for the keyword `water` (from app.py). -/
def waterEntry : Entry :=
  ⟨"Hydration is CRUCIAL for managing cycle symptoms!\n\n💧 **Aim for 2-3 liters daily** — even more during your period\n🩸 **During menstruation:** You lose fluids, so increase intake\n🥤 **Electrolytes:** Add a pinch of salt or drink coconut water\n🍵 **Herbal teas count!** — Ginger, chamomile, and peppermint are great\n\n⚠️ **Signs of dehydration:** Headaches, fatigue, darker urine, dizziness\n\nMany period symptoms (headaches, cramps, fatigue) are worsened by dehydration. A glass of water can be surprisingly effective!",
   "💧"⟩

/-- Entry of the `CHATBOT_RESPONSES` table for the keyword `hydrat` (from app.py). -/
def hydratEntry : Entry :=
  ⟨"Great question about hydration! 💧\n\nStaying hydrated helps with SO many cycle symptoms:\n• Reduces headaches\n• Eases cramps\n• Reduces bloating (yes, more water = less bloating!)\n• Improves energy and focus\n\n🎯 **Goal:** 8-10 glasses per day, more during your period\n🍵 **Fun options:** Infused water, herbal tea, coconut water\n\nTry keeping a water bottle with you throughout the day!",
   "💧"⟩

/-- Entry of the `CHATBOT_RESPONSES` table for the keyword `pms` (from app.py). -/
def pmsEntry : Entry :=
  ⟨"**PMS (Premenstrual Syndrome)** affects up to 75% of menstruating people. You\x27re definitely not alone!\n\n📊 **Common symptoms:** Bloating, mood swings, breast tenderness, fatigue, irritability, food cravings\n📅 **When:** Usually 1-2 weeks before your period (late luteal phase)\n\n🛠️ **Management strategies:**\n• Regular exercise (reduces symptoms by ~30%)\n• Calcium supplements (1200mg daily reduces PMS)\n• B6 vitamins help with mood symptoms\n• Reduce salt, caffeine, and alcohol\n• Prioritize sleep\n\nIf PMS significantly impacts your life, consult a healthcare provider — treatments are available!",
   "🩺"⟩

/-- Entry of the `CHATBOT_RESPONSES` table for the keyword `help` (from app.py). -/
def helpEntry : Entry :=
  ⟨"I\x27m here to help! Here are some things you can ask me about:\n\n🔴 **Cycle phases** — \"Tell me about the luteal phase\"\n😊 **Mood & emotions** — \"Why am I feeling tired?\"\n💊 **Symptoms** — \"How to reduce cramps?\"\n🏃 **Lifestyle** — \"Exercise tips for my cycle\"\n🥗 **Nutrition** — \"Diet tips during period\"\n💧 **Hydration** — \"How much water should I drink?\"\n🧘 **Self-care** — \"Stress management tips\"\n\nJust type naturally — I understand keywords and will give you relevant, evidence-based information! ❤️",
   "💡"⟩

/-- Entry of the `CHATBOT_RESPONSES` table for the keyword `hello` (from app.py). -/
def helloEntry : Entry :=
  ⟨"Hi there! 👋 Welcome to your Cycora AI Companion. I\x27m here to help you understand your cycle, manage symptoms, and feel empowered about your health.\n\nWhat would you like to know today? You can ask about:\n• Your current phase\n• Symptom management\n• Lifestyle tips\n• Or just chat about how you\x27re feeling!\n\nI\x27m all ears (well, all algorithms 😄)!",
   "❤️"⟩

/-- Entry of the `CHATBOT_RESPONSES` table for the keyword `thank` (from app.py). -/
def thankEntry : Entry :=
  ⟨"You\x27re so welcome! 🤗 I\x27m always here whenever you need support, information, or just someone to talk to about your cycle.\n\nRemember: understanding your body is an act of self-love. You\x27re doing amazing by being proactive about your health! 💪\n\nFeel free to come back anytime! ❤️",
   "🌸"⟩

/-- Entry of the `CHATBOT_RESPONSES` table for the keyword `self.care` (from app.py). -/
def selfCareEntry : Entry :=
  ⟨"Self-care during your cycle isn\x27t luxury — it\x27s ESSENTIAL! Here\x27s a phase-by-phase guide:\n\n❄️ **Menstrual:** Warm baths, cozy blankets, journaling, gentle yoga\n🌱 **Follicular:** Try new things, socialize, creative projects\n☀️ **Ovulation:** Dress up, connect with friends, tackle big tasks\n🌙 **Luteal:** Wind down, skincare routine, reading, early bedtimes\n\n🎯 **Daily non-negotiables:**\n• 5 minutes of deep breathing\n• One glass of water upon waking\n• Moving your body in any way that feels good\n\nYou deserve care in every phase. 💛",
   "💛"⟩

/-- Entry of the `CHATBOT_RESPONSES` table for the keyword `acne` (from app.py). -/
def acneEntry : Entry :=
  ⟨"Hormonal acne is closely tied to your cycle!\n\n📊 **When it happens:** Usually during the late luteal phase and early menstrual phase, when progesterone rises and then estrogen drops\n\n🛠️ **What helps:**\n• Gentle, non-comedogenic skincare\n• Avoid touching your face\n• Zinc supplements may help\n• Stay hydrated\n• Green tea (anti-inflammatory)\n• Consistent sleep schedule\n\n💡 **Tip:** Track your breakouts alongside your cycle to identify your personal pattern. If acne is severe, a dermatologist can help with hormonal treatments.",
   "✨"⟩

/-- Entry of the `CHATBOT_RESPONSES` table for the keyword `weight` (from app.py). -/
def weightEntry : Entry :=
  ⟨"Weight fluctuations during your cycle are completely NORMAL!\n\n📊 **What to expect:**\n• **Menstrual:** Slight decrease as water retention drops\n• **Follicular:** Stable, good time to focus on fitness goals\n• **Ovulation:** May feel leaner\n• **Luteal:** Can gain 2-5 lbs from water retention!\n\n💡 **Remember:**\n• This is water weight, NOT fat gain\n• It will naturally resolve\n• Don\x27t change your diet drastically based on scale numbers\n• Focus on how you FEEL, not what the scale says\n\nYour body is cyclical, and so is your weight. That\x27s perfectly healthy! 💪",
   "⚖️"⟩

/-- Entry of the `CHATBOT_RESPONSES` table for the keyword `friend` (from app.py). -/
def friendEntry : Entry :=
  ⟨"Having supportive friends during your cycle makes a huge difference! 👭\n\nCycora\x27s **Inner Circle** feature lets you:\n• Connect up to 10 trusted friends\n• Optionally share your cycle phase (with privacy controls)\n• Receive care and check-ins during tough phases\n• Send support to friends who need it\n\n💡 **Tips for being a supportive friend:**\n• Check in during their late luteal/menstrual phase\n• Don\x27t dismiss their feelings as \"just hormones\"\n• Offer practical help (soup delivery, a walk together)\n• Just listen — sometimes that\x27s enough\n\nYou can manage your sharing preferences in Settings! 🔐",
   "👭"⟩

/-- The `CHATBOT_RESPONSES` keyword table of app.py, in Python dict insertion order. -/
def CHATBOT_RESPONSES : List (String × Entry) := [
  ("cramp", crampEntry),
  ("headache", headacheEntry),
  ("bloat", bloatEntry),
  ("pain", painEntry),
  ("nausea", nauseaEntry),
  ("tired", tiredEntry),
  ("fatigue", fatigueEntry),
  ("mood", moodEntry),
  ("anxiety", anxietyEntry),
  ("stress", stressEntry),
  ("irritab", irritabEntry),
  ("sad", sadEntry),
  ("luteal", lutealEntry),
  ("follicular", follicularEntry),
  ("ovulation", ovulationEntry),
  ("menstrual", menstrualEntry),
  ("period", periodEntry),
  ("phase", phaseEntry),
  ("cycle", cycleEntry),
  ("exercise", exerciseEntry),
  ("sleep", sleepEntry),
  ("diet", dietEntry),
  ("water", waterEntry),
  ("hydrat", hydratEntry),
  ("pms", pmsEntry),
  ("help", helpEntry),
  ("hello", helloEntry),
  ("thank", thankEntry),
  ("self.care", selfCareEntry),
  ("acne", acneEntry),
  ("weight", weightEntry),
  ("friend", friendEntry)]

/-- The default fallback response of app.py (`FALLBACK_RESPONSE`). -/
def FALLBACK_RESPONSE : Entry :=
  ⟨"That\x27s a great question! While I may not have a specific answer for that, here are some things I can help with:\n\n• **Cycle phases** — Understanding menstrual, follicular, ovulation, and luteal phases\n• **Symptoms** — Managing cramps, headaches, fatigue, bloating\n• **Emotions** — Mood changes, anxiety, stress during your cycle\n• **Lifestyle** — Exercise, diet, sleep, and hydration tips\n• **Self-care** — Phase-specific wellness strategies\n\nTry asking me about any of these topics! I\x27m here to support your wellness journey. ❤️",
   "💡"⟩
/-- The normalized message `message.lower().strip()` of app.py line 314. -/
def normalizeMsg (message : String) : List Char :=
  stripChars (message.data.map Char.toLower)

/-- One iteration of the keyword loop of app.py lines 320-327: keep the entry
whose keyword occurs in the message and whose length strictly beats the best
score so far. -/
def selStep (ml : List Char) (acc : Option Entry × Nat) (kv : String × Entry) :
    Option Entry × Nat :=
  if occursL kv.1.data ml ∧ acc.2 < kv.1.length then (some kv.2, kv.1.length)
  else acc

/-- Shallow embedding of `get_chatbot_response` (app.py lines 312-331). -/
def get_chatbot_response (message : String) : Entry :=
  ((CHATBOT_RESPONSES.foldl (selStep (normalizeMsg message)) (none, 0)).1).getD
    FALLBACK_RESPONSE

/-- The length of the longest keyword of `l` occurring in `ml`, starting from
score `s` (the value `best_score` holds after the loop of app.py lines
320-327). -/
def bestScore (ml : List Char) (l : List (String × Entry)) (s : Nat) : Nat :=
  l.foldl (fun m kv => if occursL kv.1.data ml then max m kv.1.length else m) s

/-- The personalization suffix built by the `chat` route (app.py line 569). -/
def personalization (p : Prediction) : String :=
  "\n\n📅 *Based on your cycle data, you\x27re currently in your **" ++ p.phase ++
    " phase** (Day " ++ toString p.day_of_cycle ++ " of " ++
    toString p.cycle_length ++ "). " ++ p.mood_tip ++ "*"

/-- Shallow embedding of the `chat` route body (app.py lines 552-575): `none`
is the 400 "Message cannot be empty" error; otherwise the composed response
text and emoji. The `cycle` argument models `cycles_db[user_id]` when the
requesting user has stored cycle data. -/
def chat (message : String) (cycle : Option CycleData) (t : Now) (fuel : Nat) :
    Option (String × String) :=
  if stripChars message.data = [] then none
  else
    let result := get_chatbot_response message
    let personalizationText :=
      match cycle with
      | none => ""
      | some cd =>
        match calculate_predictions cd t fuel with
        | .ok p => personalization p
        | _ => ""
    some (result.response ++ personalizationText, result.emoji)

/-- If the advancement loop returns, the returned instant is not earlier than
`today` (the loop's exit condition). -/
theorem advanceLoop_not_lt (cl : Int) (t : Now) :
    ∀ (fuel : Nat) (np r : Int),
      advanceLoop cl t fuel np = some r → dtLTb r t = false := by
  intro fuel
  induction fuel with
  | zero =>
    intro np r h
    by_cases hb : dtLTb np t
    · simp [advanceLoop, hb] at h
    · simp [advanceLoop, hb] at h
      subst h
      simpa using hb
  | succ n ih =>
    intro np r h
    by_cases hb : dtLTb np t
    · simp [advanceLoop, hb] at h
      exact ih _ _ h
    · simp [advanceLoop, hb] at h
      subst h
      simpa using hb

/-- With a non-positive cycle length and a start instant earlier than `today`,
the advancement loop never exits, whatever the iteration fuel. -/
theorem advanceLoop_none (cl : Int) (t : Now) (hcl : cl ≤ 0) :
    ∀ (fuel : Nat) (np : Int),
      dtLTb np t = true → advanceLoop cl t fuel np = none := by
  intro fuel
  induction fuel with
  | zero => intro np h; simp [advanceLoop, h]
  | succ n ih =>
    intro np h
    have h2 : dtLTb (np + cl) t = true := by
      simp only [dtLTb, decide_eq_true_eq] at h ⊢
      have : (np + cl) * 86400 ≤ np * 86400 := by nlinarith
      omega
    simp [advanceLoop, h, ih _ h2]

/-- Execution lemma: `calculate_predictions` when the loop runs out of fuel. -/
theorem calc_fuelOut (d : CycleData) (t : Now) (fuel : Nat) (s : String)
    (last cl pl : Int)
    (h1 : d.last_period_date = some s) (h2 : strptimeYMD s = some last)
    (h3 : pyInt (d.cycle_length.getD (.vInt 28)) = some cl)
    (h4 : pyInt (d.period_length.getD (.vInt 5)) = some pl)
    (h5 : advanceLoop cl t fuel (last + cl) = none) :
    calculate_predictions d t fuel = .fuelOut := by
  simp only [calculate_predictions, h1, h2, h3, h4, h5]

/-- Execution lemma: the dict `calculate_predictions` returns on the success
path, given the values of the parses, coercions and loop. -/
theorem calc_ok (d : CycleData) (t : Now) (fuel : Nat) (s : String)
    (last cl pl np : Int)
    (h1 : d.last_period_date = some s) (h2 : strptimeYMD s = some last)
    (h3 : pyInt (d.cycle_length.getD (.vInt 28)) = some cl)
    (h4 : pyInt (d.period_length.getD (.vInt 5)) = some pl)
    (h5 : advanceLoop cl t fuel (last + cl) = some np)
    (h6 : cl ≠ 0) :
    calculate_predictions d t fuel = .ok {
      next_period := np
      days_until_period := max 0 (dtDaysUntil np t)
      ovulation_date := np - 14
      fertile_start := np - 14 - 2
      fertile_end := np - 14 + 2
      phase := classifyPhase (Int.fmod (daysDiff t last) cl) pl
      phase_description := phaseDescriptionOf (Int.fmod (daysDiff t last) cl) pl
      mood_tip := moodTipOf (Int.fmod (daysDiff t last) cl) pl
      day_of_cycle := Int.fmod (daysDiff t last) cl + 1
      cycle_length := cl
      period_length := pl } := by
  simp only [calculate_predictions, h1, h2, h3, h4, h5, if_neg h6]

/-- Inversion lemma: a successful `calculate_predictions` run determines the
parses, coercions, loop result and every field of the returned dict. -/
theorem calc_ok_inv (d : CycleData) (t : Now) (fuel : Nat) (p : Prediction)
    (h : calculate_predictions d t fuel = .ok p) :
    ∃ (s : String) (last cl pl np : Int),
      d.last_period_date = some s ∧ strptimeYMD s = some last ∧
      pyInt (d.cycle_length.getD (.vInt 28)) = some cl ∧
      pyInt (d.period_length.getD (.vInt 5)) = some pl ∧
      advanceLoop cl t fuel (last + cl) = some np ∧ cl ≠ 0 ∧
      p = {
        next_period := np
        days_until_period := max 0 (dtDaysUntil np t)
        ovulation_date := np - 14
        fertile_start := np - 14 - 2
        fertile_end := np - 14 + 2
        phase := classifyPhase (Int.fmod (daysDiff t last) cl) pl
        phase_description := phaseDescriptionOf (Int.fmod (daysDiff t last) cl) pl
        mood_tip := moodTipOf (Int.fmod (daysDiff t last) cl) pl
        day_of_cycle := Int.fmod (daysDiff t last) cl + 1
        cycle_length := cl
        period_length := pl } := by
  rcases hld : d.last_period_date with _ | s
  · simp only [calculate_predictions, hld] at h
    exact PredResult.noConfusion h
  · rcases hps : strptimeYMD s with _ | last
    · simp only [calculate_predictions, hld, hps] at h
      exact PredResult.noConfusion h
    · rcases hcl : pyInt (d.cycle_length.getD (.vInt 28)) with _ | cl
      · simp only [calculate_predictions, hld, hps, hcl] at h
        exact PredResult.noConfusion h
      · rcases hpl : pyInt (d.period_length.getD (.vInt 5)) with _ | pl
        · simp only [calculate_predictions, hld, hps, hcl, hpl] at h
          exact PredResult.noConfusion h
        · rcases hal : advanceLoop cl t fuel (last + cl) with _ | np
          · simp only [calculate_predictions, hld, hps, hcl, hpl, hal] at h
            exact PredResult.noConfusion h
          · by_cases h0 : cl = 0
            · simp only [calculate_predictions, hld, hps, hcl, hpl, hal,
                if_pos h0] at h
              exact PredResult.noConfusion h
            · rw [calc_ok d t fuel s last cl pl np hld hps hcl hpl hal h0] at h
              injection h with h'
              exact ⟨s, last, cl, pl, np, rfl, hps, rfl, rfl, hal, h0, h'.symm⟩

/-- Day number of 2026-02-01, the seeded demo `last_period_date`. -/
def lastFeb2026 : Int := (strptimeYMD "2026-02-01").getD 0

/-- A concrete valid cycle-data dict: last period 2026-02-01, 28/5. -/
def d0c : CycleData := ⟨some "2026-02-01", some (.vInt 28), some (.vInt 5)⟩

/-- A concrete evaluation instant: midnight, 19 days after 2026-02-01. -/
def t0c : Now := ⟨lastFeb2026 + 19, 0⟩

/-- The prediction `calculate_predictions` returns for `d0c` at `t0c`:
Luteal, day 20 of 28. -/
def pred0 : Prediction := {
  next_period := lastFeb2026 + 28
  days_until_period := 9
  ovulation_date := lastFeb2026 + 14
  fertile_start := lastFeb2026 + 12
  fertile_end := lastFeb2026 + 16
  phase := "Luteal"
  phase_description := lutealDesc
  mood_tip := lutealTip
  day_of_cycle := 20
  cycle_length := 28
  period_length := 5 }

/-- Claim C1 (code_bug): the claim says a profile with a valid date and
`cycle_length_days ≤ 0` makes the predictor terminate with
`InvalidCycleLengthError`. The code has no such validation: with
`cycle_length = 0` (and likewise `-5`) and a past `last_period_date`, the
`while next_period < today` loop of app.py lines 115-116 never exits — for
every iteration fuel the run is still inside the loop — so no value (and no
typed error) is ever returned. -/
theorem claim1_nonpositive_cycle_length_loops_forever :
    (∀ fuel : Nat,
      calculate_predictions ⟨some "2026-02-01", some (.vInt 0), some (.vInt 5)⟩
        t0c fuel = .fuelOut) ∧
    (∀ fuel : Nat,
      calculate_predictions ⟨some "2026-02-01", some (.vInt (-5)), some (.vInt 5)⟩
        t0c fuel = .fuelOut) := by
  constructor
  · intro fuel
    exact calc_fuelOut _ _ _ "2026-02-01" lastFeb2026 0 5 rfl (by decide) rfl rfl
      (advanceLoop_none 0 t0c (by decide) fuel _ (by decide))
  · intro fuel
    exact calc_fuelOut _ _ _ "2026-02-01" lastFeb2026 (-5) 5 rfl (by decide) rfl rfl
      (advanceLoop_none (-5) t0c (by decide) fuel _ (by decide))

/-- Claim C2 counterexample: with a valid date and a `cycle_length` value that
is not coercible to an integer, `int()` raises an uncaught exception
(app.py line 109) — the predictor does not substitute 28 and return a normal
prediction. -/
theorem claim2_counterexample :
    calculate_predictions ⟨some "2026-02-01", some (.vStr "abc"), none⟩
      ⟨0, 0⟩ 0 = .excep := by decide

/-- Claim C2 (amended): the defaults 28 and 5 are used only when the
`cycle_length`/`period_length` fields are absent, in which case a normal
prediction is produced; a present but non-coercible value makes `int()` raise
an uncaught exception instead of defaulting. -/
theorem claim2_defaults_only_when_absent :
    (∀ (s : String) (last : Int) (t : Now) (fuel : Nat) (np : Int),
      strptimeYMD s = some last →
      advanceLoop 28 t fuel (last + 28) = some np →
      ∃ p, calculate_predictions ⟨some s, none, none⟩ t fuel = .ok p ∧
        p.cycle_length = 28 ∧ p.period_length = 5) ∧
    (∀ (d : CycleData) (t : Now) (fuel : Nat) (s : String) (last : Int),
      d.last_period_date = some s → strptimeYMD s = some last →
      pyInt (d.cycle_length.getD (.vInt 28)) = none →
      calculate_predictions d t fuel = .excep) ∧
    (∀ (d : CycleData) (t : Now) (fuel : Nat) (s : String) (last cl : Int),
      d.last_period_date = some s → strptimeYMD s = some last →
      pyInt (d.cycle_length.getD (.vInt 28)) = some cl →
      pyInt (d.period_length.getD (.vInt 5)) = none →
      calculate_predictions d t fuel = .excep) := by
  refine ⟨?_, ?_, ?_⟩
  · intro s last t fuel np hps hal
    exact ⟨_, calc_ok _ t fuel s last 28 5 np rfl hps rfl rfl hal (by decide),
      rfl, rfl⟩
  · intro d t fuel s last h1 h2 h3
    simp only [calculate_predictions, h1, h2, h3]
  · intro d t fuel s last cl h1 h2 h3 h4
    simp only [calculate_predictions, h1, h2, h3, h4]

/-- Claim C2 witness: a profile with both numeric fields absent yields a
normal prediction with the defaults 28 and 5. -/
theorem claim2_witness :
    strptimeYMD "2026-02-01" = some lastFeb2026 ∧
    advanceLoop 28 t0c 0 (lastFeb2026 + 28) = some (lastFeb2026 + 28) ∧
    ∃ p, calculate_predictions ⟨some "2026-02-01", none, none⟩ t0c 0 = .ok p ∧
      p.cycle_length = 28 ∧ p.period_length = 5 :=
  ⟨by decide, by decide,
    claim2_defaults_only_when_absent.1 "2026-02-01" lastFeb2026 t0c 0
      (lastFeb2026 + 28) (by decide) (by decide)⟩

/-- Claim C3: `calculate_predictions` returns its typed failure value (the
`None` of app.py line 107, the spec's `InvalidDateError`) exactly when the
`last_period_date` field is missing or fails to parse as `%Y-%m-%d`; a profile
with a parseable date never produces that error. -/
theorem claim3_invalid_date_iff (d : CycleData) (t : Now) (fuel : Nat) :
    calculate_predictions d t fuel = .invalidDate ↔
      (d.last_period_date = none ∨
       ∃ s, d.last_period_date = some s ∧ strptimeYMD s = none) := by
  constructor
  · intro h
    rcases hld : d.last_period_date with _ | s
    · exact Or.inl rfl
    · rcases hps : strptimeYMD s with _ | last
      · exact Or.inr ⟨s, rfl, hps⟩
      · exfalso
        rcases hcl : pyInt (d.cycle_length.getD (.vInt 28)) with _ | cl
        · simp only [calculate_predictions, hld, hps, hcl] at h
          exact PredResult.noConfusion h
        · rcases hpl : pyInt (d.period_length.getD (.vInt 5)) with _ | pl
          · simp only [calculate_predictions, hld, hps, hcl, hpl] at h
            exact PredResult.noConfusion h
          · rcases hal : advanceLoop cl t fuel (last + cl) with _ | np
            · simp only [calculate_predictions, hld, hps, hcl, hpl, hal] at h
              exact PredResult.noConfusion h
            · by_cases h0 : cl = 0
              · simp only [calculate_predictions, hld, hps, hcl, hpl, hal,
                  if_pos h0] at h
                exact PredResult.noConfusion h
              · rw [calc_ok d t fuel s last cl pl np hld hps hcl hpl hal h0] at h
                exact PredResult.noConfusion h
  · rintro (h | ⟨s, h1, h2⟩)
    · simp only [calculate_predictions, h]
    · simp only [calculate_predictions, h1, h2]

/-- Modelled from the spec's phase-boundary test vector (§8): with
`cycle_length_days = 28` and `period_length_days = 5`,
`days_since_last_period = 0..4` → Menstrual, `5..12` → Follicular,
`13..16` → Ovulation, `17..27` → Luteal. -/
def specPhase28 (dsp : Int) : String :=
  if 0 ≤ dsp ∧ dsp ≤ 4 then "Menstrual"
  else if 5 ≤ dsp ∧ dsp ≤ 12 then "Follicular"
  else if 13 ≤ dsp ∧ dsp ≤ 16 then "Ovulation"
  else "Luteal"

/-- Claim C4: the current phase is chosen from the day in cycle by ordered
thresholds, first match winning (`< period_length` → Menstrual, `< 13` →
Follicular, `< 17` → Ovulation, else Luteal); the phase is always one of the
four values, and for a 28/5 profile the thresholds give exactly the spec's
day-range table. -/
theorem claim4_phase_thresholds :
    (∀ (d : CycleData) (t : Now) (fuel : Nat) (p : Prediction),
      calculate_predictions d t fuel = .ok p → 0 < p.cycle_length →
      p.phase = classifyPhase (p.day_of_cycle - 1) p.period_length) ∧
    (∀ dsp pl : Int,
      classifyPhase dsp pl = "Menstrual" ∨ classifyPhase dsp pl = "Follicular" ∨
      classifyPhase dsp pl = "Ovulation" ∨ classifyPhase dsp pl = "Luteal") ∧
    (∀ dsp : Int, 0 ≤ dsp → dsp < 28 → classifyPhase dsp 5 = specPhase28 dsp) := by
  refine ⟨?_, ?_, ?_⟩
  · intro d t fuel p h _
    rcases calc_ok_inv d t fuel p h with ⟨s, last, cl, pl, np, _, _, _, _, _, _, hp⟩
    subst hp
    have harg : Int.fmod (daysDiff t last) cl + 1 - 1 =
        Int.fmod (daysDiff t last) cl := by omega
    simp only [harg]
  · intro dsp pl
    unfold classifyPhase
    split_ifs
    · exact Or.inl rfl
    · exact Or.inr (Or.inl rfl)
    · exact Or.inr (Or.inr (Or.inl rfl))
    · exact Or.inr (Or.inr (Or.inr rfl))
  · intro dsp h1 h2
    unfold classifyPhase specPhase28
    split_ifs <;> first | rfl | omega

/-- Claim C4 witness: the 28/5 profile `d0c` evaluated 19 days after its last
period start is on cycle day 20 and its phase agrees with the threshold
classifier. -/
theorem claim4_witness :
    calculate_predictions d0c t0c 0 = .ok pred0 ∧ 0 < pred0.cycle_length ∧
    pred0.phase = classifyPhase (pred0.day_of_cycle - 1) pred0.period_length :=
  ⟨by decide, by decide,
    claim4_phase_thresholds.1 d0c t0c 0 pred0 (by decide) (by decide)⟩

/-- Claim C5: for a successful prediction with positive cycle length,
`day_of_cycle` lies in `[1, cycle_length]` and equals the whole-day difference
between now and the last period start, reduced modulo the cycle length into
`[0, cycle_length)`, plus one. -/
theorem claim5_day_of_cycle_bounds :
    ∀ (d : CycleData) (t : Now) (fuel : Nat) (p : Prediction) (s : String)
      (last : Int),
      d.last_period_date = some s → strptimeYMD s = some last →
      calculate_predictions d t fuel = .ok p → 0 < p.cycle_length →
      1 ≤ p.day_of_cycle ∧ p.day_of_cycle ≤ p.cycle_length ∧
      p.day_of_cycle = Int.fmod (daysDiff t last) p.cycle_length + 1 ∧
      0 ≤ Int.fmod (daysDiff t last) p.cycle_length ∧
      Int.fmod (daysDiff t last) p.cycle_length < p.cycle_length := by
  intro d t fuel p s last h1 h2 h3 hpos
  rcases calc_ok_inv d t fuel p h3 with
    ⟨s', last', cl, pl, np, hld, hps, _, _, _, _, hp⟩
  rw [h1] at hld
  injection hld with hs
  subst hs
  rw [h2] at hps
  injection hps with hl
  subst hl
  subst hp
  simp only at hpos ⊢
  have hnn : 0 ≤ Int.fmod (daysDiff t last) cl := Int.fmod_nonneg' _ hpos
  have hlt : Int.fmod (daysDiff t last) cl < cl := Int.fmod_lt_of_pos _ hpos
  exact ⟨by omega, by omega, by simp, hnn, hlt⟩

/-- Claim C5 witness: for `d0c` at `t0c` the returned day of cycle is 20, i.e.
the 19-day difference reduced mod 28 plus one, inside `[1, 28]`. -/
theorem claim5_witness :
    calculate_predictions d0c t0c 0 = .ok pred0 ∧
    1 ≤ pred0.day_of_cycle ∧ pred0.day_of_cycle ≤ pred0.cycle_length ∧
    pred0.day_of_cycle = Int.fmod (daysDiff t0c lastFeb2026) pred0.cycle_length + 1 ∧
    0 ≤ Int.fmod (daysDiff t0c lastFeb2026) pred0.cycle_length ∧
    Int.fmod (daysDiff t0c lastFeb2026) pred0.cycle_length < pred0.cycle_length :=
  ⟨by decide,
    claim5_day_of_cycle_bounds d0c t0c 0 pred0 "2026-02-01" lastFeb2026
      (by decide) (by decide) (by decide) (by decide)⟩

/-- Claim C6: for a successful prediction with positive cycle length, the
computed next period instant is not earlier than `now` (as a `datetime`
comparison), and `days_until_period` is non-negative. -/
theorem claim6_next_period_not_in_past :
    ∀ (d : CycleData) (t : Now) (fuel : Nat) (p : Prediction),
      calculate_predictions d t fuel = .ok p → 0 < p.cycle_length →
      t.day * 86400 + (t.frac : Int) ≤ p.next_period * 86400 ∧
      0 ≤ p.days_until_period := by
  intro d t fuel p h _
  rcases calc_ok_inv d t fuel p h with
    ⟨s, last, cl, pl, np, _, _, _, _, hal, _, hp⟩
  subst hp
  have hnl := advanceLoop_not_lt cl t fuel _ _ hal
  simp only [dtLTb, decide_eq_false_iff_not, Int.not_lt] at hnl
  exact ⟨hnl, le_max_left 0 _⟩

/-- Claim C6 witness: for `d0c` at `t0c` the next period instant is nine days
ahead of `now` and `days_until_period = 9 ≥ 0`. -/
theorem claim6_witness :
    calculate_predictions d0c t0c 0 = .ok pred0 ∧
    t0c.day * 86400 + (t0c.frac : Int) ≤ pred0.next_period * 86400 ∧
    0 ≤ pred0.days_until_period :=
  ⟨by decide,
    claim6_next_period_not_in_past d0c t0c 0 pred0 (by decide) (by decide)⟩

/-- Unfolding `bestScore` over a cons cell. -/
theorem bestScore_cons (ml : List Char) (kv : String × Entry)
    (l : List (String × Entry)) (s : Nat) :
    bestScore ml (kv :: l) s =
      bestScore ml l (if occursL kv.1.data ml then max s kv.1.length else s) := rfl

/-- The best score never drops below its starting value. -/
theorem le_bestScore (ml : List Char) :
    ∀ (l : List (String × Entry)) (s : Nat), s ≤ bestScore ml l s := by
  intro l
  induction l with
  | nil => intro s; exact le_refl s
  | cons kv rest ih =>
    intro s
    rw [bestScore_cons]
    by_cases h : occursL kv.1.data ml = true
    · exact le_trans (le_max_left s kv.1.length) (if_pos h ▸ ih _)
    · exact if_neg h ▸ ih s

/-- Every occurring keyword's length is bounded by the best score. -/
theorem bestScore_ge_of_mem (ml : List Char) :
    ∀ (l : List (String × Entry)) (s : Nat) (kv : String × Entry),
      kv ∈ l → occursL kv.1.data ml = true → kv.1.length ≤ bestScore ml l s := by
  intro l
  induction l with
  | nil => intro s kv h; cases h
  | cons kv0 rest ih =>
    intro s kv hmem hocc
    rw [bestScore_cons]
    rcases List.mem_cons.mp hmem with h | h
    · subst h
      rw [if_pos hocc]
      exact le_trans (le_max_right s kv.1.length) (le_bestScore ml rest _)
    · exact ih _ kv h hocc

/-- If no keyword of the list occurs in the message, the best score stays at
its starting value. -/
theorem bestScore_of_no_match (ml : List Char) :
    ∀ (l : List (String × Entry)) (s : Nat),
      (∀ kv ∈ l, occursL kv.1.data ml = false) → bestScore ml l s = s := by
  intro l
  induction l with
  | nil => intro s _; rfl
  | cons kv0 rest ih =>
    intro s h
    rw [bestScore_cons]
    have h0 : occursL kv0.1.data ml = false := h kv0 (List.mem_cons_self _ _)
    rw [if_neg (by simp [h0]), ih s (fun kv hkv => h kv (List.mem_cons_of_mem _ hkv))]

/-- The score component of the selection loop is exactly `bestScore`. -/
theorem foldl_selStep_score (ml : List Char) :
    ∀ (l : List (String × Entry)) (b : Option Entry) (s : Nat),
      (l.foldl (selStep ml) (b, s)).2 = bestScore ml l s := by
  intro l
  induction l with
  | nil => intro b s; rfl
  | cons kv rest ih =>
    intro b s
    rw [List.foldl_cons, bestScore_cons]
    by_cases hocc : occursL kv.1.data ml = true
    · rw [if_pos hocc]
      by_cases hlt : s < kv.1.length
      · have hstep : selStep ml (b, s) kv = (some kv.2, kv.1.length) := by
          simp [selStep, hocc, hlt]
        rw [hstep, ih]
        congr 1
        omega
      · have hstep : selStep ml (b, s) kv = (b, s) := by
          simp [selStep, hlt]
        rw [hstep, ih]
        congr 1
        omega
    · rw [if_neg hocc]
      have hstep : selStep ml (b, s) kv = (b, s) := by
        simp [selStep, hocc]
      rw [hstep, ih]

/-- If no keyword of the list beats the current score, the selection loop
keeps the current best entry. -/
theorem foldl_selStep_stay (ml : List Char) :
    ∀ (l : List (String × Entry)) (b : Option Entry) (s : Nat),
      bestScore ml l s = s → (l.foldl (selStep ml) (b, s)).1 = b := by
  intro l
  induction l with
  | nil => intro b s _; rfl
  | cons kv rest ih =>
    intro b s h
    rw [bestScore_cons] at h
    by_cases hocc : occursL kv.1.data ml = true
    · rw [if_pos hocc] at h
      have hle : max s kv.1.length ≤ s :=
        le_of_le_of_eq (le_bestScore ml rest _) h
      have hmax : max s kv.1.length = s := le_antisymm hle (le_max_left _ _)
      have hlen : kv.1.length ≤ s := by
        rw [← hmax]; exact le_max_right _ _
      rw [List.foldl_cons]
      have hstep : selStep ml (b, s) kv = (b, s) := by
        simp [selStep, Nat.not_lt.mpr hlen]
      rw [hstep]
      rw [hmax] at h
      exact ih b s h
    · rw [if_neg hocc] at h
      rw [List.foldl_cons]
      have hstep : selStep ml (b, s) kv = (b, s) := by
        simp [selStep, hocc]
      rw [hstep]
      exact ih b s h

/-- When some keyword beats the current score, the selection loop returns the
entry of the first keyword in list order that occurs in the message and whose
length attains the best score (first match wins on ties, since the loop
requires a strict improvement). -/
theorem foldl_selStep_pick (ml : List Char) :
    ∀ (l : List (String × Entry)) (b : Option Entry) (s : Nat),
      s < bestScore ml l s →
      ∃ kv, List.find? (fun kv => occursL kv.1.data ml &&
          (kv.1.length == bestScore ml l s)) l = some kv ∧
        (l.foldl (selStep ml) (b, s)).1 = some kv.2 := by
  intro l
  induction l with
  | nil => intro b s h; exact absurd h (lt_irrefl s)
  | cons kv0 rest ih =>
    intro b s h
    rw [bestScore_cons] at h ⊢
    by_cases hocc : occursL kv0.1.data ml = true
    · rw [if_pos hocc] at h ⊢
      by_cases hlt : s < kv0.1.length
      · have hmax : max s kv0.1.length = kv0.1.length := max_eq_right (le_of_lt hlt)
        rw [hmax] at h ⊢
        have hstep : selStep ml (b, s) kv0 = (some kv0.2, kv0.1.length) := by
          simp [selStep, hocc, hlt]
        by_cases hBeq : bestScore ml rest kv0.1.length = kv0.1.length
        · refine ⟨kv0, ?_, ?_⟩
          · rw [List.find?_cons_of_pos]
            simp [hocc, hBeq]
          · rw [List.foldl_cons, hstep]
            exact foldl_selStep_stay ml rest (some kv0.2) kv0.1.length hBeq
        · have hBgt : kv0.1.length < bestScore ml rest kv0.1.length :=
            lt_of_le_of_ne (le_bestScore ml rest _) (Ne.symm hBeq)
          rcases ih (some kv0.2) kv0.1.length hBgt with ⟨kv, hfind, hfold⟩
          refine ⟨kv, ?_, ?_⟩
          · rw [List.find?_cons_of_neg, hfind]
            simp [Ne.symm hBeq]
          · rw [List.foldl_cons, hstep]
            exact hfold
      · have hmax : max s kv0.1.length = s := max_eq_left (Nat.not_lt.mp hlt)
        rw [hmax] at h ⊢
        have hstep : selStep ml (b, s) kv0 = (b, s) := by
          simp [selStep, hlt]
        rcases ih b s h with ⟨kv, hfind, hfold⟩
        refine ⟨kv, ?_, ?_⟩
        · rw [List.find?_cons_of_neg, hfind]
          have : kv0.1.length ≠ bestScore ml rest s := by omega
          simp [this]
        · rw [List.foldl_cons, hstep]
          exact hfold
    · rw [if_neg hocc] at h ⊢
      have hstep : selStep ml (b, s) kv0 = (b, s) := by
        simp [selStep, hocc]
      rcases ih b s h with ⟨kv, hfind, hfold⟩
      refine ⟨kv, ?_, ?_⟩
      · rw [List.find?_cons_of_neg, hfind]
        simp [hocc]
      · rw [List.foldl_cons, hstep]
        exact hfold

/-- Provenance: a selected entry comes from the starting accumulator or from a
list element whose keyword occurs in the message. -/
theorem foldl_selStep_provenance (ml : List Char) :
    ∀ (l : List (String × Entry)) (b : Option Entry) (s : Nat) (e : Entry),
      (l.foldl (selStep ml) (b, s)).1 = some e →
      b = some e ∨ ∃ kv ∈ l, occursL kv.1.data ml = true ∧ kv.2 = e := by
  intro l
  induction l with
  | nil => intro b s e h; exact Or.inl h
  | cons kv0 rest ih =>
    intro b s e h
    rw [List.foldl_cons] at h
    by_cases hsel : occursL kv0.1.data ml = true ∧ s < kv0.1.length
    · rw [show selStep ml (b, s) kv0 = (some kv0.2, kv0.1.length) from by
        simp [selStep, hsel.1, hsel.2]] at h
      rcases ih _ _ _ h with h1 | ⟨kv, hmem, hocc, hkv⟩
      · injection h1 with h1
        exact Or.inr ⟨kv0, List.mem_cons_self _ _, hsel.1, h1⟩
      · exact Or.inr ⟨kv, List.mem_cons_of_mem _ hmem, hocc, hkv⟩
    · rw [show selStep ml (b, s) kv0 = (b, s) from by simp [selStep, hsel]] at h
      rcases ih _ _ _ h with h1 | ⟨kv, hmem, hocc, hkv⟩
      · exact Or.inl h1
      · exact Or.inr ⟨kv, List.mem_cons_of_mem _ hmem, hocc, hkv⟩

/-- Every keyword of the `CHATBOT_RESPONSES` table is non-empty. -/
theorem keywords_nonempty :
    ∀ kv ∈ CHATBOT_RESPONSES, 0 < kv.1.length := by decide

/-- `isPrefixL` is exactly list-prefix. -/
theorem isPrefixL_iff : ∀ n h : List Char, isPrefixL n h = true ↔ ∃ t, h = n ++ t := by
  intro n
  induction n with
  | nil =>
    intro h
    simp only [isPrefixL, List.nil_append]
    exact ⟨fun _ => ⟨h, rfl⟩, fun _ => trivial⟩
  | cons a as ih =>
    intro h
    cases h with
    | nil =>
      simp only [isPrefixL]
      constructor
      · intro hF; exact absurd hF (by simp)
      · rintro ⟨t, ht⟩; exact absurd ht (by simp)
    | cons b bs =>
      simp only [isPrefixL, Bool.and_eq_true, beq_iff_eq]
      constructor
      · rintro ⟨rfl, hp⟩
        rcases (ih bs).mp hp with ⟨t, rfl⟩
        exact ⟨t, rfl⟩
      · rintro ⟨t, ht⟩
        rw [List.cons_append] at ht
        injection ht with h1 h2
        exact ⟨h1.symm, (ih bs).mpr ⟨t, h2⟩⟩

/-- `occursL` is exactly substring containment: the needle occurs iff the
haystack splits around it. -/
theorem occursL_iff (n : List Char) :
    ∀ h : List Char, occursL n h = true ↔ ∃ pre post, h = pre ++ n ++ post := by
  intro h
  induction h with
  | nil =>
    simp only [occursL, List.isEmpty_iff]
    constructor
    · rintro rfl; exact ⟨[], [], rfl⟩
    · rintro ⟨pre, post, hp⟩
      rcases List.append_eq_nil.mp (List.append_eq_nil.mp hp.symm).1 with ⟨_, h2⟩
      exact h2
  | cons b bs ih =>
    simp only [occursL, Bool.or_eq_true]
    constructor
    · rintro (hp | ho)
      · rcases (isPrefixL_iff n (b :: bs)).mp hp with ⟨t, ht⟩
        exact ⟨[], t, by simpa using ht⟩
      · rcases ih.mp ho with ⟨pre, post, hp⟩
        exact ⟨b :: pre, post, by simp [hp]⟩
    · rintro ⟨pre, post, hp⟩
      cases pre with
      | nil =>
        exact Or.inl ((isPrefixL_iff n (b :: bs)).mpr ⟨post, by simpa using hp⟩)
      | cons c cs =>
        simp only [List.cons_append] at hp
        injection hp with h1 h2
        exact Or.inr (ih.mpr ⟨cs, post, h2⟩)

/-- `stripChars` returns an infix of its input. -/
theorem stripChars_infix (l : List Char) :
    ∃ pre post, l = pre ++ stripChars l ++ post := by
  refine ⟨l.takeWhile Char.isWhitespace,
    ((l.dropWhile Char.isWhitespace).reverse.takeWhile Char.isWhitespace).reverse, ?_⟩
  unfold stripChars
  conv_lhs => rw [← List.takeWhile_append_dropWhile (p := Char.isWhitespace) (l := l)]
  rw [List.append_assoc]
  congr 1
  conv_lhs => rw [← List.reverse_reverse (l.dropWhile Char.isWhitespace),
    ← List.takeWhile_append_dropWhile (p := Char.isWhitespace)
      (l := (l.dropWhile Char.isWhitespace).reverse)]
  rw [List.reverse_append]

/-- Occurrence in a stripped list implies occurrence in the original list. -/
theorem occursL_of_occursL_stripChars (n l : List Char)
    (h : occursL n (stripChars l) = true) : occursL n l = true := by
  rcases (occursL_iff n (stripChars l)).mp h with ⟨a, b, hab⟩
  rcases stripChars_infix l with ⟨pre, post, hl⟩
  refine (occursL_iff n l).mpr ⟨pre ++ a, b ++ post, ?_⟩
  rw [hl, hab]
  simp [List.append_assoc]

/-- Claim C7: the selector picks, among the keywords occurring as substrings
of the lowercased trimmed message, one of maximal keyword length, ties going
to the keyword seen first in table iteration order (encoded as: the result is
the entry of the first table element that occurs and attains the best score);
for "I have really bad cramps and a headache" the 8-character "headache"
beats the 5-character "cramp". -/
theorem claim7_longest_keyword_wins :
    (∀ message : String,
      (∃ kv ∈ CHATBOT_RESPONSES,
        occursL kv.1.data (normalizeMsg message) = true) →
      ∃ kv, List.find? (fun kv => occursL kv.1.data (normalizeMsg message) &&
          (kv.1.length == bestScore (normalizeMsg message) CHATBOT_RESPONSES 0))
          CHATBOT_RESPONSES = some kv ∧
        get_chatbot_response message = kv.2 ∧
        occursL kv.1.data (normalizeMsg message) = true ∧
        ∀ kv' ∈ CHATBOT_RESPONSES,
          occursL kv'.1.data (normalizeMsg message) = true →
          kv'.1.length ≤ kv.1.length) ∧
    get_chatbot_response "I have really bad cramps and a headache" =
      headacheEntry := by
  constructor
  · rintro message ⟨kv0, hmem, hocc⟩
    have hpos : 0 < bestScore (normalizeMsg message) CHATBOT_RESPONSES 0 := by
      have h1 := bestScore_ge_of_mem (normalizeMsg message) CHATBOT_RESPONSES 0
        kv0 hmem hocc
      have h2 := keywords_nonempty kv0 hmem
      omega
    rcases foldl_selStep_pick (normalizeMsg message) CHATBOT_RESPONSES none 0 hpos
      with ⟨kv, hfind, hfold⟩
    have hp := List.find?_some hfind
    simp only [Bool.and_eq_true, beq_iff_eq] at hp
    refine ⟨kv, hfind, ?_, hp.1, ?_⟩
    · unfold get_chatbot_response
      rw [hfold]
      rfl
    · intro kv' hmem' hocc'
      have h3 := bestScore_ge_of_mem (normalizeMsg message) CHATBOT_RESPONSES 0
        kv' hmem' hocc'
      omega
  · decide

/-- Claim C7 witness: "I have really bad cramps and a headache" has occurring
keywords, and the selected entry is that of a longest occurring keyword,
first in table order among those. -/
theorem claim7_witness :
    (∃ kv ∈ CHATBOT_RESPONSES,
      occursL kv.1.data
        (normalizeMsg "I have really bad cramps and a headache") = true) ∧
    ∃ kv, List.find? (fun kv =>
        occursL kv.1.data (normalizeMsg "I have really bad cramps and a headache") &&
        (kv.1.length == bestScore
          (normalizeMsg "I have really bad cramps and a headache")
          CHATBOT_RESPONSES 0)) CHATBOT_RESPONSES = some kv ∧
      get_chatbot_response "I have really bad cramps and a headache" = kv.2 ∧
      occursL kv.1.data (normalizeMsg "I have really bad cramps and a headache") = true ∧
      ∀ kv' ∈ CHATBOT_RESPONSES,
        occursL kv'.1.data
          (normalizeMsg "I have really bad cramps and a headache") = true →
        kv'.1.length ≤ kv.1.length :=
  ⟨by decide, claim7_longest_keyword_wins.1 _ (by decide)⟩

/-- Claim C8: the selector is total — a message in which no table keyword
occurs gets the fixed fallback entry, and every message gets either a table
entry or the fallback; "xyzabc123" gets the fallback. -/
theorem claim8_selector_total_fallback :
    (∀ message : String,
      (∀ kv ∈ CHATBOT_RESPONSES,
        occursL kv.1.data (normalizeMsg message) = false) →
      get_chatbot_response message = FALLBACK_RESPONSE) ∧
    (∀ message : String,
      get_chatbot_response message = FALLBACK_RESPONSE ∨
      ∃ kv ∈ CHATBOT_RESPONSES, get_chatbot_response message = kv.2) ∧
    get_chatbot_response "xyzabc123" = FALLBACK_RESPONSE := by
  refine ⟨?_, ?_, by decide⟩
  · intro message h
    have h0 : bestScore (normalizeMsg message) CHATBOT_RESPONSES 0 = 0 :=
      bestScore_of_no_match (normalizeMsg message) CHATBOT_RESPONSES 0 h
    unfold get_chatbot_response
    rw [foldl_selStep_stay (normalizeMsg message) CHATBOT_RESPONSES none 0 h0]
    rfl
  · intro message
    rcases hres : (CHATBOT_RESPONSES.foldl (selStep (normalizeMsg message))
        (none, 0)).1 with _ | e
    · left
      unfold get_chatbot_response
      rw [hres]
      rfl
    · rcases foldl_selStep_provenance (normalizeMsg message) CHATBOT_RESPONSES
        none 0 e hres with h1 | ⟨kv, hmem, _, hkv⟩
      · exact Option.noConfusion h1
      · right
        refine ⟨kv, hmem, ?_⟩
        unfold get_chatbot_response
        rw [hres, hkv]
        rfl

/-- Claim C8 witness: no table keyword occurs in "xyzabc123", and the
selector returns the fallback entry on it. -/
theorem claim8_witness :
    (∀ kv ∈ CHATBOT_RESPONSES,
      occursL kv.1.data (normalizeMsg "xyzabc123") = false) ∧
    get_chatbot_response "xyzabc123" = FALLBACK_RESPONSE :=
  ⟨by decide, claim8_selector_total_fallback.1 "xyzabc123" (by decide)⟩

/-- Claim C10: keyword matching is literal substring containment, so the
self-care entry — keyed by the literal string "self.care" with a dot — is
returned only for messages whose lowercased text contains those exact nine
characters; in particular "self care" and "self-care" fall through to the
fallback. -/
theorem claim10_selfcare_literal_dot :
    (∀ message : String,
      get_chatbot_response message = selfCareEntry →
      occursL "self.care".data (message.data.map Char.toLower) = true) ∧
    get_chatbot_response "self care" = FALLBACK_RESPONSE ∧
    get_chatbot_response "self-care" = FALLBACK_RESPONSE := by
  refine ⟨?_, by decide, by decide⟩
  intro message h
  unfold get_chatbot_response at h
  rcases hres : (CHATBOT_RESPONSES.foldl (selStep (normalizeMsg message))
      (none, 0)).1 with _ | e
  · rw [hres] at h
    exact absurd h (by decide)
  · rw [hres] at h
    have he : e = selfCareEntry := h
    subst he
    rcases foldl_selStep_provenance (normalizeMsg message) CHATBOT_RESPONSES
      none 0 _ hres with h1 | ⟨kv, hmem, hocc, hkv⟩
    · exact Option.noConfusion h1
    · have hkey : kv.1 = "self.care" := by
        have hall : ∀ kv ∈ CHATBOT_RESPONSES,
            kv.2 = selfCareEntry → kv.1 = "self.care" := by decide
        exact hall kv hmem hkv
      rw [hkey] at hocc
      exact occursL_of_occursL_stripChars _ _ hocc

/-- Claim C10 witness: the selector applied to the concrete message
"self.care tips" does return the self-care entry, and indeed the lowercased
message contains the literal "self.care". -/
theorem claim10_witness :
    get_chatbot_response "self.care tips" = selfCareEntry ∧
    occursL "self.care".data ("self.care tips".data.map Char.toLower) = true :=
  ⟨by decide, claim10_selfcare_literal_dot.1 "self.care tips" (by decide)⟩

/-- Claim C9 counterexample: for a profile yielding phase Luteal on day 20 of
a 28-day cycle, the composed chat output contains neither the claimed literal
"day 20 of 28" (the code capitalizes "Day") nor the claimed template text
"Based on your cycle data, you are in your" (the code writes "you\x27re
currently in your"). -/
theorem claim9_counterexample :
    (chat "hello" (some d0c) t0c 0).map
      (fun r => occursL "day 20 of 28".data r.1.data ||
        occursL "Based on your cycle data, you are in your".data r.1.data) =
      some false := by decide

/-- Claim C9 (amended): when a prediction is available the chat workflow
appends the deterministic suffix
"\n\n📅 *Based on your cycle data, you\x27re currently in your **{phase}
phase** (Day {day_of_cycle} of {cycle_length}). {mood_tip}*" to the selected
response; for a profile yielding Luteal day 20 of 28 the composed output
contains the literal substrings "Luteal phase" and "Day 20 of 28". -/
theorem claim9_personalization_suffix :
    (∀ (message : String) (cd : CycleData) (t : Now) (fuel : Nat) (p : Prediction),
      stripChars message.data ≠ [] →
      calculate_predictions cd t fuel = .ok p →
      chat message (some cd) t fuel =
        some ((get_chatbot_response message).response ++ personalization p,
          (get_chatbot_response message).emoji)) ∧
    (chat "hello" (some d0c) t0c 0).map
      (fun r => occursL "Luteal phase".data r.1.data &&
        occursL "Day 20 of 28".data r.1.data) = some true := by
  constructor
  · intro message cd t fuel p hne hok
    simp only [chat, if_neg hne, hok]
  · decide

/-- Claim C9 witness: at the concrete Luteal-day-20 profile the chat output is
exactly the selected response plus the personalization suffix. -/
theorem claim9_witness :
    stripChars "hello".data ≠ [] ∧
    calculate_predictions d0c t0c 0 = .ok pred0 ∧
    chat "hello" (some d0c) t0c 0 =
      some ((get_chatbot_response "hello").response ++ personalization pred0,
        (get_chatbot_response "hello").emoji) :=
  ⟨by decide, by decide,
    claim9_personalization_suffix.1 "hello" d0c t0c 0 pred0 (by decide) (by decide)⟩
